import Mathlib

/-!
# Verification of the food-blog utility scripts

Shallow embedding of the three standalone scripts of the repository:

* `scripts/create-responsive-images.py` — responsive image variant generation
  (`create_responsive_images`, `generate_picture_element`);
* `scripts/generate-sitemap.py` — sitemap builder (`generate`);
* `convert-to-webp.py` — JPG→WebP batch converter (`convert_jpg_to_webp`, `main`).

Modelling conventions:

* Python's float division in the sizing computation is modelled as exact
  rational arithmetic.  Since all quantities involved are positive integers,
  the ratio comparison `ow/oh > W/H` becomes `W*oh < ow*H` on naturals and the
  truncation `int(H * (ow/oh))` becomes natural-number division `(H*ow)/oh`
  (for positive values Python's `int` truncation coincides with the floor that
  natural division computes).
* File-system effects are made explicit: a small state record tracks the
  directories and files the script has created; opening a file that cannot be
  read is an `Option`/`Except` failure.
* Pillow's `Image.crop(box)` returns an image whose size is exactly the box
  size `(right - left, bottom - top)` (out-of-bounds regions are padded), so
  the crop step is modelled by the box arithmetic itself.  Python's `//` is
  floor division, hence `Int.fdiv` on integers.
-/

/-! ## Responsive image generator: sizing arithmetic -/

/-- The fixed size table of `create_responsive_images` (the `sizes` dict):
for an image type, the ordered list of `(size_name, (width, height))`
buckets, in the source's insertion order; `none` for an unknown image type
(a `KeyError` in Python). -/
def sizesTable (image_type : String) : Option (List (String × ℕ × ℕ)) :=
  if image_type = "hero" then
    some [("400", 400, 500), ("800", 800, 1000), ("1200", 1200, 1500), ("1600", 1600, 2000)]
  else if image_type = "card" then
    some [("300", 300, 225), ("600", 600, 450)]
  else if image_type = "process" then
    some [("400", 400, 300), ("800", 800, 600)]
  else if image_type = "gallery" then
    some [("300", 300, 300), ("600", 600, 600), ("1200", 1200, 900)]
  else none

/-- The aspect-preserving pre-crop scaling step of `create_responsive_images`:
`img_ratio = ow/oh`, `target_ratio = W/H`; if `img_ratio > target_ratio`
(equivalently `W*oh < ow*H`) fit to height: `(int(H * img_ratio), H)`,
else fit to width: `(W, int(W / img_ratio))`.  Python's float division is
modelled exactly: `int(H * ow/oh) = (H*ow)/oh` in natural division. -/
def scaledDims (ow oh W H : ℕ) : ℕ × ℕ :=
  if W * oh < ow * H then (H * ow / oh, H) else (W, W * oh / ow)

/-- The center-crop box of `create_responsive_images`:
`left = (new_width - width) // 2`, `top = (new_height - height) // 2`,
box `(left, top, left + width, top + height)`.  Python `//` is floor
division on integers, hence `Int.fdiv`. -/
def cropBox (nw nh W H : ℕ) : ℤ × ℤ × ℤ × ℤ :=
  let left : ℤ := Int.fdiv ((nw : ℤ) - (W : ℤ)) 2
  let top : ℤ := Int.fdiv ((nh : ℤ) - (H : ℤ)) 2
  (left, top, left + (W : ℤ), top + (H : ℤ))

/-- The pixel size of `img.crop(box)`: `(right - left, bottom - top)`. -/
def cropSize (box : ℤ × ℤ × ℤ × ℤ) : ℤ × ℤ :=
  (box.2.2.1 - box.1, box.2.2.2 - box.2.1)

/-- The dimensions of one produced variant: resize to `scaledDims`, then
center-crop whenever the scaled size differs from the target
(`if new_width != width or new_height != height`). -/
def variantDims (ow oh W H : ℕ) : ℤ × ℤ :=
  if (scaledDims ow oh W H).1 ≠ W ∨ (scaledDims ow oh W H).2 ≠ H then
    cropSize (cropBox (scaledDims ow oh W H).1 (scaledDims ow oh W H).2 W H)
  else (((scaledDims ow oh W H).1 : ℤ), ((scaledDims ow oh W H).2 : ℤ))

/-! ## Responsive image generator: run with file-system effects -/

/-- Minimal file-system state: directories created and files written. -/
structure FS where
  dirs : List String
  files : List String
deriving DecidableEq

/-- The failure modes of `create_responsive_images`: `Image.open` raising on
an unreadable source, and the `sizes[image_type]` lookup raising `KeyError`
on an unknown image type.  Both propagate (no handler). -/
inductive RespError where
  | unreadableSource
  | unknownImageType
deriving DecidableEq

/-- `os.makedirs(recipe_dir, exist_ok=True)`: add the directory if absent. -/
def makedirs (d : String) (fs : FS) : FS :=
  FS.mk (if d ∈ fs.dirs then fs.dirs else fs.dirs ++ [d]) fs.files

/-- One loop iteration of `create_responsive_images`: compute the variant for
one size bucket and write the JPG and WebP files (in that order). -/
def processBucket (recipe_dir base_name : String) (ow oh : ℕ)
    (acc : FS × List (String × ℤ × ℤ)) (b : String × ℕ × ℕ) :
    FS × List (String × ℤ × ℤ) :=
  let size_name := b.1
  let W := b.2.1
  let H := b.2.2
  let dims := variantDims ow oh W H
  let jpg := recipe_dir ++ "/" ++ base_name ++ "-" ++ size_name ++ ".jpg"
  let webp := recipe_dir ++ "/" ++ base_name ++ "-" ++ size_name ++ ".webp"
  (FS.mk acc.1.dirs (acc.1.files ++ [jpg, webp]),
   acc.2 ++ [(size_name, dims)])

/-- `create_responsive_images(input_path, recipe_name, image_type)`.
The source image is `some (width, height)` when readable, `none` when
`Image.open` raises.  The run: create the output directory (before anything
else), open the image, look up the size table, then for each bucket resize,
crop and save the JPG and WebP variants.  Returns the final file-system
state and, on success, the list of `(size_name, variant pixel dimensions)`
produced. -/
def create_responsive_images (input : Option (ℕ × ℕ))
    (recipe_name image_type base_name : String) (fs : FS) :
    FS × Except RespError (List (String × ℤ × ℤ)) :=
  let recipe_dir := "images/recipes/" ++ recipe_name
  let fs1 := makedirs recipe_dir fs
  match input with
  | none => (fs1, Except.error RespError.unreadableSource)
  | some (ow, oh) =>
    match sizesTable image_type with
    | none => (fs1, Except.error RespError.unknownImageType)
    | some buckets =>
      let r := buckets.foldl (processBucket recipe_dir base_name ow oh) (fs1, [])
      (r.1, Except.ok r.2)

/-! ## Responsive image generator: `generate_picture_element` -/

/-- The `sizes_map` dict of `generate_picture_element`: ordered size labels
per image type; `none` for an unknown type (`KeyError`). -/
def sizes_map (image_type : String) : Option (List String) :=
  if image_type = "hero" then some ["400", "800", "1200", "1600"]
  else if image_type = "card" then some ["300", "600"]
  else if image_type = "process" then some ["400", "800"]
  else if image_type = "gallery" then some ["300", "600", "1200"]
  else none

/-- The image URL used throughout `generate_picture_element`:
`../images/recipes/{recipe_name}/{base_name}-{size}.{ext}`. -/
def recipeImgUrl (recipe_name base_name size ext : String) : String :=
  "../images/recipes/" ++ recipe_name ++ "/" ++ base_name ++ "-" ++ size ++ "." ++ ext

/-- One WebP srcset entry: `{url}.webp {size}w`. -/
def webpEntry (recipe_name base_name size : String) : String :=
  recipeImgUrl recipe_name base_name size "webp" ++ " " ++ size ++ "w"

/-- One JPEG srcset entry: `{url}.jpg {size}w`. -/
def jpgEntry (recipe_name base_name size : String) : String :=
  recipeImgUrl recipe_name base_name size "jpg" ++ " " ++ size ++ "w"

/-- The `sizes` attribute chosen by the fixed if/elif chain keyed on the
image type ("gallery" and anything else share the final `else`). -/
def sizesAttr (image_type : String) : String :=
  if image_type = "hero" then
    "(max-width: 480px) 100vw, (max-width: 768px) 100vw, (max-width: 1200px) 60vw, 735px"
  else if image_type = "card" then
    "(max-width: 768px) 50vw, 300px"
  else if image_type = "process" then
    "(max-width: 768px) 100vw, 400px"
  else
    "(max-width: 768px) 50vw, 300px"

/-- The f-string text of the `<picture>` markup up to the WebP srcset. -/
def pictureOpen : String := "<picture>\n    <source\n        srcset=\""

/-- The f-string text between the WebP srcset and the fallback `src` URL. -/
def pictureAfterWebp : String :=
  "\"\n        type=\"image/webp\">\n    <img\n        src=\""

/-- The f-string text between the fallback `src` URL and the JPEG srcset. -/
def pictureAfterSrc : String := "\"\n        srcset=\""

/-- The f-string text after the JPEG srcset: the `sizes`, `width`, `height`,
`alt` and `loading` attributes, the optional `fetchpriority` attribute, and
the closing tags. -/
def pictureTail (image_type alt_text : String) (width height : ℕ)
    (loading : String) (fetchpriority : Option String) : String :=
  "\"\n        sizes=\"" ++ sizesAttr image_type ++
  "\"\n        width=\"" ++ toString width ++
  "\"\n        height=\"" ++ toString height ++
  "\"\n        alt=\"" ++ alt_text ++
  "\"\n        loading=\"" ++ loading ++ "\"" ++
  (match fetchpriority with
   | some p => "\n        fetchpriority=\"" ++ p ++ "\""
   | none => "") ++
  " />\n</picture>"

/-- The assembled `<picture>` markup of `generate_picture_element`, given the
ordered size list already looked up from `sizes_map`.  The WebP srcset, the
fallback `src` (the JPEG of `sizes[-1]`, the last label) and the JPEG srcset
are interpolated exactly as in the source's f-string. -/
def pictureHtml (recipe_name base_name image_type alt_text : String)
    (width height : ℕ) (loading : String) (fetchpriority : Option String)
    (sizes : List String) : String :=
  pictureOpen ++
  String.intercalate ", " (sizes.map (webpEntry recipe_name base_name)) ++
  pictureAfterWebp ++
  recipeImgUrl recipe_name base_name (sizes.getLastD "") "jpg" ++
  pictureAfterSrc ++
  String.intercalate ", " (sizes.map (jpgEntry recipe_name base_name)) ++
  pictureTail image_type alt_text width height loading fetchpriority

/-- `generate_picture_element`: look up the profile's ordered size list and
render the markup; `none` when the image type is unknown (`KeyError`). -/
def generate_picture_element (recipe_name base_name image_type alt_text : String)
    (width height : ℕ) (loading : String) (fetchpriority : Option String) :
    Option String :=
  (sizes_map image_type).map
    (pictureHtml recipe_name base_name image_type alt_text width height
      loading fetchpriority)

/-- Numeric value of a (decimal-digit) size label, for comparing bucket
sizes. -/
def labelNat (s : String) : ℕ :=
  s.data.foldl (fun n c => n * 10 + (c.toNat - 48)) 0

/-! ## Sitemap builder (`scripts/generate-sitemap.py`) -/

/-- `BASE_URL` of the sitemap builder. -/
def BASE_URL : String := "https://yourwellnessgirly.com"

/-- One recipe record of `data/recipes.json`, restricted to the keys the
builder reads.  `slug = none` models a record without a `"slug"` key
(`recipe["slug"]` then raises `KeyError`); the two date fields model
`recipe.get(...)`, `none` for a missing key.  Date values are modelled as
strings; the empty string is the falsy string in Python's truth test. -/
structure Recipe where
  slug : Option String
  dateModified : Option String
  datePublished : Option String
deriving DecidableEq

/-- Python's `a or b` for an optional string `a` (`recipe.get(...)`):
`a`'s value when present and truthy (non-empty), else `b`.  `None` and the
empty string are falsy. -/
def pyOrStr (a : Option String) (b : String) : String :=
  match a with
  | none => b
  | some s => if s = "" then b else s

/-- The `<lastmod>` choice for one recipe:
`recipe.get("dateModified") or recipe.get("datePublished") or TODAY`. -/
def lastmodOf (dateModified datePublished : Option String) (today : String) : String :=
  pyOrStr dateModified (pyOrStr datePublished today)

/-- `build_url_entry(loc, lastmod, changefreq, priority)`. -/
def build_url_entry (loc lastmod changefreq priority : String) : String :=
  "  <url>\n    <loc>" ++ BASE_URL ++ loc ++ "</loc>\n    <lastmod>" ++ lastmod ++
  "</lastmod>\n    <changefreq>" ++ changefreq ++ "</changefreq>\n    <priority>" ++
  priority ++ "</priority>\n  </url>"

/-- `STATIC_PAGES` as `(loc, changefreq, priority, lastmod)`; the first two
lastmods are `TODAY`. -/
def STATIC_PAGES (today : String) : List (String × String × String × String) :=
  [("/", "weekly", "1.0", today),
   ("/recipe-index", "weekly", "0.9", today),
   ("/about", "monthly", "0.8", "2025-01-10"),
   ("/work-with-me", "monthly", "0.7", "2025-01-10"),
   ("/contact", "monthly", "0.6", "2025-01-10")]

/-- The recipe-page entries, in list order: `recipe["slug"]` raises on a
record without the key (so the whole construction fails, `none`), otherwise
the entry is built from the slug and the `<lastmod>` choice. -/
def recipeEntries (today : String) : List Recipe → Option (List String)
  | [] => some []
  | r :: rs =>
    match r.slug with
    | none => none
    | some slug =>
      (recipeEntries today rs).map
        (fun es =>
          build_url_entry ("/recipes/" ++ slug)
            (lastmodOf r.dateModified r.datePublished today) "monthly" "0.8" :: es)

/-- The failure modes of `generate`: `open(RECIPES_JSON)` raising when the
file is missing, `json.load` raising on malformed JSON, and `recipe["slug"]`
raising `KeyError`.  All three propagate (no handler). -/
inductive GenError where
  | fileMissing
  | malformed
  | missingSlug
deriving DecidableEq

/-- The state `generate` touches: the recipes JSON source (`none`: file
missing; `some none`: file present but malformed; `some (some rs)`: parsed
records) and the current content of `sitemap.xml` (`none`: absent). -/
structure SitemapFS where
  recipesJson : Option (Option (List Recipe))
  sitemap : Option String
deriving DecidableEq

/-- The full sitemap document: XML header, the `Main pages` comment, the
static entries, the `Recipe pages` comment, the recipe entries, joined by
newlines, then the closing tag. -/
def sitemapContent (today : String) (res : List String) : String :=
  "<?xml version=\"1.0\" encoding=\"UTF-8\"?>\n" ++
  "<urlset xmlns=\"http://www.sitemaps.org/schemas/sitemap/0.9\">\n" ++
  String.intercalate "\n"
    (["  <!-- Main pages -->"] ++
     (STATIC_PAGES today).map
       (fun p => build_url_entry p.1 p.2.2.2 p.2.1 p.2.2.1) ++
     ["\n  <!-- Recipe pages -->"] ++ res) ++
  "\n</urlset>\n"

/-- `generate()`: read and parse the recipes JSON, build all entries (static
then recipe), and only then open `sitemap.xml` for writing and write the
document.  Any failure earlier leaves the file-system state unchanged. -/
def generate (today : String) (fs : SitemapFS) : SitemapFS × Except GenError Unit :=
  match fs.recipesJson with
  | none => (fs, Except.error GenError.fileMissing)
  | some none => (fs, Except.error GenError.malformed)
  | some (some rs) =>
    match recipeEntries today rs with
    | none => (fs, Except.error GenError.missingSlug)
    | some res =>
      (SitemapFS.mk fs.recipesJson (some (sitemapContent today res)), Except.ok ())

/-! ## JPG→WebP converter (`convert-to-webp.py`) -/

/-- One `.jpg` file of the batch, together with the environment facts the
script observes: the source's mtime, the output's mtime when the `.webp`
exists (`none` otherwise), whether the Pillow open/convert/save sequence for
this file succeeds, and the exception message when it does not. -/
structure JpgFile where
  name : String
  mtime : ℤ
  webpMtime : Option ℤ
  convertOk : Bool
  errMsg : String
deriving DecidableEq

/-- `convert_jpg_to_webp(jpg_path, webp_path)`: the whole body is inside
`try/except Exception`, so the function never raises; on failure it prints
`Error converting {jpg_path}: {e}` (decorative emoji and the size-statistics
lines are abstracted away) and returns normally, giving the caller no
signal.  Returns the printed log lines. -/
def convert_jpg_to_webp (f : JpgFile) : List String :=
  if f.convertOk then
    [f.name ++ " converted"]
  else
    ["Error converting " ++ f.name ++ ": " ++ f.errMsg]

/-- The staleness check of `main`:
`os.path.exists(webp_path) and os.path.getmtime(webp_path) > os.path.getmtime(jpg_path)`
— skip exactly when the output exists with a strictly newer mtime. -/
def shouldSkip (f : JpgFile) : Bool :=
  match f.webpMtime with
  | some m => decide (f.mtime < m)
  | none => false

/-- One iteration of the loop of `main`: a skipped file prints a skip line;
any other file is passed to `convert_jpg_to_webp` and then
`converted_count += 1` runs unconditionally (the call swallows its own
failures, so the caller cannot tell success from failure). -/
def mainStep (acc : ℕ × List String) (f : JpgFile) : ℕ × List String :=
  if shouldSkip f then (acc.1, acc.2 ++ ["Skipping " ++ f.name])
  else (acc.1 + 1, acc.2 ++ convert_jpg_to_webp f)

/-- The loop of `main` over the `.jpg` files.  Returns the final
`converted_count` and the log. -/
def mainRun (files : List JpgFile) : ℕ × List String :=
  files.foldl mainStep (0, [])

/-- The number of files whose conversion actually succeeded in a run: not
skipped and the convert/save sequence did not raise. -/
def successCount (files : List JpgFile) : ℕ :=
  (files.filter (fun f => !shouldSkip f && f.convertOk)).length

/-- Environment model of the directory after a *successful* first run: a
skipped file is untouched; every other file now has its `.webp` written,
with the mtime the file system assigned at write time (`newM`). -/
def afterRun (files : List JpgFile) (newM : JpgFile → ℤ) : List JpgFile :=
  files.map (fun f =>
    if shouldSkip f then f
    else JpgFile.mk f.name f.mtime (some (newM f)) f.convertOk f.errMsg)

/-! ## Helper lemmas -/

/-- Every variant's dimensions equal the bucket target: in the crop branch
the crop box has size `(W, H)` by construction, and in the no-crop branch
the scaled size already equals the target. -/
theorem variantDims_eq (ow oh W H : ℕ) :
    variantDims ow oh W H = ((W : ℤ), (H : ℤ)) := by
  unfold variantDims
  split
  · simp only [cropSize, cropBox, Prod.mk.injEq]
    exact ⟨by ring, by ring⟩
  · next h =>
    push_neg at h
    simp [h.1, h.2]

/-- The variant list accumulated by the bucket loop of
`create_responsive_images` is the bucket list mapped through `variantDims`. -/
theorem processBucket_foldl_snd (recipe_dir base_name : String) (ow oh : ℕ)
    (bs : List (String × ℕ × ℕ)) (fs : FS) (acc : List (String × ℤ × ℤ)) :
    (bs.foldl (processBucket recipe_dir base_name ow oh) (fs, acc)).2 =
      acc ++ bs.map (fun b => (b.1, variantDims ow oh b.2.1 b.2.2)) := by
  induction bs generalizing fs acc with
  | nil => simp
  | cons b bs ih =>
    simp only [List.foldl_cons, List.map_cons]
    rw [processBucket, ih]
    simp

/-! ## C1 — every produced variant matches its bucket's target exactly -/

/-- Claim C1: for a readable source of positive dimensions and any image
type present in the size table, `create_responsive_images` succeeds and
every produced variant's pixel dimensions equal its bucket's target
`(W, H)` — the ok payload is precisely one entry per bucket carrying the
bucket's own target dimensions. -/
theorem c1_variant_dims_exact (ow oh : ℕ) (how : 0 < ow) (hoh : 0 < oh)
    (image_type : String) (buckets : List (String × ℕ × ℕ))
    (ht : sizesTable image_type = some buckets)
    (recipe_name base_name : String) (fs : FS) :
    (create_responsive_images (some (ow, oh)) recipe_name image_type base_name fs).2 =
      Except.ok (buckets.map (fun b => (b.1, ((b.2.1 : ℤ), (b.2.2 : ℤ))))) := by
  simp only [create_responsive_images, ht]
  rw [processBucket_foldl_snd]
  simp [variantDims_eq]

/-- Witness for C1: the hero profile on a 1000×800 source. -/
theorem c1_witness :
    (0 < 1000 ∧ 0 < 800 ∧
      sizesTable "hero" =
        some [("400", 400, 500), ("800", 800, 1000), ("1200", 1200, 1500), ("1600", 1600, 2000)]) ∧
    (create_responsive_images (some (1000, 800)) "mango-yogurt-bites" "hero" "photo"
        (FS.mk [] [])).2 =
      Except.ok
        ([("400", 400, 500), ("800", 800, 1000), ("1200", 1200, 1500),
          ("1600", 1600, 2000)].map
          (fun b => (b.1, ((b.2.1 : ℤ), (b.2.2 : ℤ))))) :=
  ⟨⟨by decide, by decide, rfl⟩,
   c1_variant_dims_exact 1000 800 (by decide) (by decide) "hero" _ rfl
     "mango-yogurt-bites" "photo" (FS.mk [] [])⟩

/-! ## C2 — the pre-crop scale covers the target in both dimensions -/

/-- Claim C2: for positive source dimensions and a positive target, the
aspect-preserving scaling step (fit to height when the source ratio exceeds
the target ratio, else fit to width, with truncation of the computed
dimension) yields a scaled width of at least `W` and a scaled height of at
least `H`. -/
theorem c2_scaled_covers_target (ow oh W H : ℕ)
    (how : 0 < ow) (hoh : 0 < oh) (hW : 0 < W) (hH : 0 < H) :
    W ≤ (scaledDims ow oh W H).1 ∧ H ≤ (scaledDims ow oh W H).2 := by
  unfold scaledDims
  by_cases h : W * oh < ow * H
  · rw [if_pos h]
    refine ⟨?_, le_refl H⟩
    rw [Nat.le_div_iff_mul_le hoh]
    have h' := Nat.le_of_lt h
    rwa [Nat.mul_comm ow H] at h'
  · rw [if_neg h]
    refine ⟨le_refl W, ?_⟩
    rw [Nat.le_div_iff_mul_le how]
    have h' := Nat.not_lt.mp h
    rwa [Nat.mul_comm ow H] at h'

/-- Witness for C2: a 1000×800 source against the hero 400×500 bucket
scales to 625×500, which covers 400×500. -/
theorem c2_witness :
    (0 < 1000 ∧ 0 < 800 ∧ 0 < 400 ∧ 0 < 500) ∧
    400 ≤ (scaledDims 1000 800 400 500).1 ∧ 500 ≤ (scaledDims 1000 800 400 500).2 :=
  ⟨by decide,
   c2_scaled_covers_target 1000 800 400 500 (by decide) (by decide) (by decide) (by decide)⟩

/-! ## C3 — the center-crop box formula and the worked example -/

/-- Claim C3: the center-crop step computes
`left = floor((scaledW - W)/2)`, `top = floor((scaledH - H)/2)` and the box
`(left, top, left + W, top + H)`; and on the worked example — a 1000×800
source against the hero 1600×2000 bucket — the scaled size is 2500×2000,
the crop left offset is 450, and the variant is exactly 1600×2000. -/
theorem c3_center_crop :
    (∀ nw nh W H : ℕ,
      cropBox nw nh W H =
        (Int.fdiv ((nw : ℤ) - (W : ℤ)) 2, Int.fdiv ((nh : ℤ) - (H : ℤ)) 2,
         Int.fdiv ((nw : ℤ) - (W : ℤ)) 2 + (W : ℤ),
         Int.fdiv ((nh : ℤ) - (H : ℤ)) 2 + (H : ℤ))) ∧
    ("1600", 1600, 2000) ∈ (sizesTable "hero").getD [] ∧
    scaledDims 1000 800 1600 2000 = (2500, 2000) ∧
    (cropBox 2500 2000 1600 2000).1 = 450 ∧
    variantDims 1000 800 1600 2000 = (1600, 2000) :=
  ⟨fun _ _ _ _ => rfl, by decide, by decide, by decide, by decide⟩

/-! ## C4 — lastmod precedence (corrected: falls through on falsy values) -/

/-- Counterexample to C4 as stated: a record whose `"dateModified"` key is
present (holding the empty string) does not contribute its value — the
builder falls through to `"datePublished"`, so the chosen `<lastmod>` is
not the present `"dateModified"` value. -/
theorem c4_counterexample :
    lastmodOf (some "") (some "2024-03-01") "2025-10-12" = "2024-03-01" ∧
    lastmodOf (some "") (some "2024-03-01") "2025-10-12" ≠ "" :=
  ⟨rfl, by decide⟩

/-- Claim C4 (amended): the `<lastmod>` value is chosen with precedence —
the record's `"dateModified"` value if present and non-empty, else its
`"datePublished"` value if present and non-empty, else the current run
date; a record with neither key never causes an error (the choice is a
total function). -/
theorem c4_lastmod_precedence (dm dp : Option String) (today : String) :
    (∀ s, dm = some s → s ≠ "" → lastmodOf dm dp today = s) ∧
    ((dm = none ∨ dm = some "") →
      ∀ s, dp = some s → s ≠ "" → lastmodOf dm dp today = s) ∧
    ((dm = none ∨ dm = some "") → (dp = none ∨ dp = some "") →
      lastmodOf dm dp today = today) := by
  refine ⟨?_, ?_, ?_⟩
  · rintro s rfl hs
    simp [lastmodOf, pyOrStr, hs]
  · rintro (rfl | rfl) s rfl hs <;> simp [lastmodOf, pyOrStr, hs]
  · rintro (rfl | rfl) (rfl | rfl) <;> simp [lastmodOf, pyOrStr]

/-- Witness for C4 (amended): a non-empty modified date wins outright. -/
theorem c4_witness :
    ("2024-05-05" ≠ "") ∧
    lastmodOf (some "2024-05-05") (some "2020-01-01") "2025-10-12" = "2024-05-05" :=
  ⟨by decide,
   (c4_lastmod_precedence (some "2024-05-05") (some "2020-01-01") "2025-10-12").1
     "2024-05-05" rfl (by decide)⟩

/-! ## C10 — the `or`-chain treats a falsy present value as absent -/

/-- Claim C10: because the fallback is chained with Python's `or`, a record
whose `"dateModified"` key holds the falsy empty string behaves exactly as
if the key were absent — the builder then uses `"datePublished"` when it is
truthy (non-empty), else the run date. -/
theorem c10_falsy_falls_through (dp : Option String) (today : String) :
    lastmodOf (some "") dp today = lastmodOf none dp today ∧
    (∀ s, dp = some s → s ≠ "" → lastmodOf (some "") dp today = s) ∧
    ((dp = none ∨ dp = some "") → lastmodOf (some "") dp today = today) := by
  refine ⟨by simp [lastmodOf, pyOrStr], ?_, ?_⟩
  · rintro s rfl hs
    simp [lastmodOf, pyOrStr, hs]
  · rintro (rfl | rfl) <;> simp [lastmodOf, pyOrStr]

/-- Witness for C10: empty modified date, truthy published date. -/
theorem c10_witness :
    ("2020-02-02" ≠ "") ∧
    lastmodOf (some "") (some "2020-02-02") "2025-10-12" = "2020-02-02" :=
  ⟨by decide,
   (c10_falsy_falls_through (some "2020-02-02") "2025-10-12").2.1 "2020-02-02" rfl
     (by decide)⟩

/-! ## C5 — the sitemap run is atomic on the listed failures -/

/-- A record without a `"slug"` key makes the whole entry construction fail
(`recipe["slug"]` raises `KeyError`). -/
theorem recipeEntries_none_of_missing_slug (today : String) :
    ∀ rs : List Recipe, (∃ r ∈ rs, r.slug = none) → recipeEntries today rs = none := by
  intro rs
  induction rs with
  | nil => rintro ⟨r, hr, _⟩; simp at hr
  | cons r rs ih =>
    rintro ⟨x, hx, hslug⟩
    rcases List.mem_cons.mp hx with h1 | h1
    · subst h1
      simp [recipeEntries, hslug]
    · have hrs : recipeEntries today rs = none := ih ⟨x, h1, hslug⟩
      simp only [recipeEntries]
      cases hr : r.slug with
      | none => rfl
      | some s => simp [hrs]

/-- Claim C5: if the recipes JSON file is missing or malformed, or any
record lacks the `"slug"` key, `generate` fails before the sitemap output
is opened for writing: the run returns an error and the file-system state
— in particular the current `sitemap.xml` content — is unchanged. -/
theorem c5_sitemap_atomic (today : String) (fs : SitemapFS)
    (h : fs.recipesJson = none ∨ fs.recipesJson = some none ∨
         ∃ rs, fs.recipesJson = some (some rs) ∧ ∃ r ∈ rs, r.slug = none) :
    (∃ e, (generate today fs).2 = Except.error e) ∧ (generate today fs).1 = fs := by
  rcases h with h | h | ⟨rs, hrs, hmiss⟩
  · refine ⟨⟨GenError.fileMissing, ?_⟩, ?_⟩ <;> simp [generate, h]
  · refine ⟨⟨GenError.malformed, ?_⟩, ?_⟩ <;> simp [generate, h]
  · have hnone := recipeEntries_none_of_missing_slug today rs hmiss
    refine ⟨⟨GenError.missingSlug, ?_⟩, ?_⟩ <;> simp [generate, hrs, hnone]

/-- Witness for C5: one recipe record without a slug; the previous
`sitemap.xml` content survives untouched. -/
theorem c5_witness :
    (∃ r ∈ [Recipe.mk none none none], r.slug = none) ∧
    (∃ e, (generate "2025-10-12"
        (SitemapFS.mk (some (some [Recipe.mk none none none])) (some "old sitemap"))).2 =
      Except.error e) ∧
    (generate "2025-10-12"
        (SitemapFS.mk (some (some [Recipe.mk none none none])) (some "old sitemap"))).1 =
      SitemapFS.mk (some (some [Recipe.mk none none none])) (some "old sitemap") :=
  ⟨⟨Recipe.mk none none none, by simp, rfl⟩,
   c5_sitemap_atomic "2025-10-12"
     (SitemapFS.mk (some (some [Recipe.mk none none none])) (some "old sitemap"))
     (Or.inr (Or.inr ⟨[Recipe.mk none none none], rfl,
       Recipe.mk none none none, by simp, rfl⟩))⟩

/-! ## C6 — the converter's "converted" count includes failed files -/

/-- Claim C6 (code bug): a per-file exception is indeed caught and logged
with the file name and error message, and the remaining files are still
processed — but `converted_count` is incremented unconditionally after the
call (which swallows its own failures), so the final reported count counts
the failed file too: on a batch of a failing file followed by a succeeding
one the code reports 2 conversions while only 1 succeeded. -/
theorem c6_count_includes_failures :
    (mainRun
        [JpgFile.mk "bad.jpg" 10 none false "cannot identify image file",
         JpgFile.mk "good.jpg" 10 none true ""]).2 =
      ["Error converting bad.jpg: cannot identify image file",
       "good.jpg converted"] ∧
    (mainRun
        [JpgFile.mk "bad.jpg" 10 none false "cannot identify image file",
         JpgFile.mk "good.jpg" 10 none true ""]).1 = 2 ∧
    successCount
        [JpgFile.mk "bad.jpg" 10 none false "cannot identify image file",
         JpgFile.mk "good.jpg" 10 none true ""] = 1 :=
  ⟨rfl, rfl, rfl⟩

/-! ## C7 — fail-fast, corrected: the output directory is created first -/

/-- Counterexample to C7 as stated: with a readable 1000×800 source and the
unknown image type "thumbnail", the run aborts — but the output directory
has already been created (`os.makedirs` runs before the source is opened),
so "no output files or directories are created when the run does not
complete" is false. -/
theorem c7_counterexample :
    (create_responsive_images (some (1000, 800)) "mango-yogurt-bites" "thumbnail"
        "photo" (FS.mk [] [])).2 = Except.error RespError.unknownImageType ∧
    (create_responsive_images (some (1000, 800)) "mango-yogurt-bites" "thumbnail"
        "photo" (FS.mk [] [])).1 ≠ FS.mk [] [] ∧
    (create_responsive_images (some (1000, 800)) "mango-yogurt-bites" "thumbnail"
        "photo" (FS.mk [] [])).1.dirs = ["images/recipes/mango-yogurt-bites"] :=
  ⟨rfl, by decide, rfl⟩

/-- Claim C7 (amended): any failure (unreadable source, unknown profile
name) aborts the entire run immediately — the exception propagates, no
partial-success reporting — and no variant image files are written; the
profile output directory, however, is created before the source is opened
and remains after the failure. -/
theorem c7_fail_fast (input : Option (ℕ × ℕ))
    (recipe_name image_type base_name : String) (fs : FS)
    (h : input = none ∨ sizesTable image_type = none) :
    (∃ e, (create_responsive_images input recipe_name image_type base_name fs).2 =
      Except.error e) ∧
    (create_responsive_images input recipe_name image_type base_name fs).1.files =
      fs.files ∧
    (create_responsive_images input recipe_name image_type base_name fs).1.dirs =
      (makedirs ("images/recipes/" ++ recipe_name) fs).dirs := by
  rcases h with h | h
  · subst h
    exact ⟨⟨RespError.unreadableSource, rfl⟩, rfl, rfl⟩
  · match input with
    | none => exact ⟨⟨RespError.unreadableSource, rfl⟩, rfl, rfl⟩
    | some (ow, oh) =>
      refine ⟨⟨RespError.unknownImageType, ?_⟩, ?_, ?_⟩ <;>
        simp [create_responsive_images, h, makedirs]

/-- Witness for C7 (amended): unknown image type "thumbnail". -/
theorem c7_witness :
    (sizesTable "thumbnail" = none) ∧
    ((∃ e, (create_responsive_images (some (10, 20)) "r" "thumbnail" "b"
        (FS.mk [] [])).2 = Except.error e) ∧
     (create_responsive_images (some (10, 20)) "r" "thumbnail" "b"
        (FS.mk [] [])).1.files = (FS.mk [] []).files ∧
     (create_responsive_images (some (10, 20)) "r" "thumbnail" "b"
        (FS.mk [] [])).1.dirs = (makedirs ("images/recipes/" ++ "r") (FS.mk [] [])).dirs) :=
  ⟨rfl, c7_fail_fast (some (10, 20)) "r" "thumbnail" "b" (FS.mk [] []) (Or.inr rfl)⟩

/-! ## C8 — the staleness check and second-run idempotence -/

/-- The converted count of a run is the number of files that fail the
staleness check. -/
theorem mainRun_foldl_count (files : List JpgFile) (n : ℕ) (logs : List String) :
    (files.foldl mainStep (n, logs)).1 =
      n + (files.filter (fun f => !shouldSkip f)).length := by
  induction files generalizing n logs with
  | nil => simp
  | cons f fs ih =>
    by_cases hf : shouldSkip f <;>
      simp [mainStep, hf, ih] <;> omega

/-- After a successful run whose written outputs are all newer than their
sources, every file of the directory passes the staleness check. -/
theorem afterRun_all_skipped (files : List JpgFile) (newM : JpgFile → ℤ)
    (h : ∀ f ∈ files, shouldSkip f = false → f.mtime < newM f) :
    ∀ g ∈ afterRun files newM, shouldSkip g = true := by
  intro g hg
  rcases List.mem_map.mp hg with ⟨f, hf, rfl⟩
  by_cases hs : shouldSkip f
  · simp [hs]
  · have hm := h f hf (by simpa using hs)
    rw [if_neg hs]
    simp [shouldSkip, hm]

/-- Claim C8: the converter skips a source exactly when its output exists
with a strictly newer modification time; consequently a second run over
the unchanged directory — after a first run that succeeded and whose
written outputs all carry mtimes newer than their sources — performs zero
conversions. -/
theorem c8_second_run_idempotent (files : List JpgFile) (newM : JpgFile → ℤ)
    (h : ∀ f ∈ files, shouldSkip f = false → f.mtime < newM f) :
    (∀ f : JpgFile, shouldSkip f = true ↔ ∃ m, f.webpMtime = some m ∧ f.mtime < m) ∧
    (mainRun (afterRun files newM)).1 = 0 := by
  constructor
  · intro f
    cases hw : f.webpMtime with
    | none => simp [shouldSkip, hw]
    | some m => simp [shouldSkip, hw]
  · have hall := afterRun_all_skipped files newM h
    rw [mainRun, mainRun_foldl_count]
    have : (afterRun files newM).filter (fun f => !shouldSkip f) = [] := by
      rw [List.filter_eq_nil_iff]
      intro g hg
      simp [hall g hg]
    simp [this]

/-- Witness for C8: one fresh file and one already-up-to-date file; the
first run writes the fresh one's output at mtime 100, the second run
converts nothing. -/
theorem c8_witness :
    (∀ f ∈ [JpgFile.mk "a.jpg" 10 none true "", JpgFile.mk "b.jpg" 5 (some 7) true ""],
      shouldSkip f = false → f.mtime < 100) ∧
    (mainRun (afterRun
        [JpgFile.mk "a.jpg" 10 none true "", JpgFile.mk "b.jpg" 5 (some 7) true ""]
        (fun _ => 100))).1 = 0 :=
  ⟨by decide,
   (c8_second_run_idempotent
     [JpgFile.mk "a.jpg" 10 none true "", JpgFile.mk "b.jpg" 5 (some 7) true ""]
     (fun _ => 100) (by decide)).2⟩

/-! ## C9 — srcset order and the fallback `src` of the markup fragment -/

/-- Claim C9: for every image type in the `sizes_map` table,
`generate_picture_element` renders a fragment in which the WebP srcset and
the JPEG srcset list their entries over the same profile-defined size list
in the same order, and the fallback `src` attribute is the JPEG URL of
`sizes[-1]` — the last size label, which is also the numerically largest
label of the profile's ordered list. -/
theorem c9_markup_order_and_fallback (image_type : String) (sizes : List String)
    (ht : sizes_map image_type = some sizes)
    (recipe_name base_name alt_text : String) (width height : ℕ)
    (loading : String) (fetchpriority : Option String) :
    generate_picture_element recipe_name base_name image_type alt_text width height
        loading fetchpriority =
      some (pictureHtml recipe_name base_name image_type alt_text width height
        loading fetchpriority sizes) ∧
    pictureHtml recipe_name base_name image_type alt_text width height
        loading fetchpriority sizes =
      pictureOpen ++
      String.intercalate ", " (sizes.map (webpEntry recipe_name base_name)) ++
      pictureAfterWebp ++
      recipeImgUrl recipe_name base_name (sizes.getLastD "") "jpg" ++
      pictureAfterSrc ++
      String.intercalate ", " (sizes.map (jpgEntry recipe_name base_name)) ++
      pictureTail image_type alt_text width height loading fetchpriority ∧
    (∀ s ∈ sizes, labelNat s ≤ labelNat (sizes.getLastD "")) := by
  refine ⟨by simp [generate_picture_element, ht], rfl, ?_⟩
  unfold sizes_map at ht
  split_ifs at ht <;> simp only [Option.some.injEq] at ht <;> subst ht <;> decide

/-- Witness for C9: the hero profile. -/
theorem c9_witness :
    sizes_map "hero" = some ["400", "800", "1200", "1600"] ∧
    generate_picture_element "mango-yogurt-bites" "photo" "hero" "alt" 1600 2000
        "eager" (some "high") =
      some (pictureHtml "mango-yogurt-bites" "photo" "hero" "alt" 1600 2000
        "eager" (some "high") ["400", "800", "1200", "1600"]) ∧
    (∀ s ∈ ["400", "800", "1200", "1600"],
      labelNat s ≤ labelNat (["400", "800", "1200", "1600"].getLastD "")) :=
  ⟨rfl,
   (c9_markup_order_and_fallback "hero" ["400", "800", "1200", "1600"] rfl
     "mango-yogurt-bites" "photo" "alt" 1600 2000 "eager" (some "high")).1,
   (c9_markup_order_and_fallback "hero" ["400", "800", "1200", "1600"] rfl
     "mango-yogurt-bites" "photo" "alt" 1600 2000 "eager" (some "high")).2.2⟩
